/-
Verification of the `etl_movies_ratings` Airflow DAG
(src/airflow-etl/dags/etl_two_tables.py) against its specification.

The pipeline's task callables are embedded as pure Lean functions:
  * the relational store is a `DB` record holding the three tables
    (`stg_movies`, `stg_ratings`, `fact_movie_ratings`), each an
    `Option (List row)` where `none` means the relation does not exist;
  * the filesystem is an `FS` record holding the data directory's file
    names, the scratch (`/opt/airflow/tmp`) directory, and the output
    directory's files;
  * SQL numerics and pandas floats are embedded as `ℚ`;
  * fallible task bodies return `Except String _`.
-/
import Mathlib

namespace ETL

/-! ## Data model -/

/-- A row of `movies.csv` / `stg_movies`: `movie_id`, `title`, `year`. -/
structure MovieRow where
  movie_id : Int
  title : String
  year : Int
deriving DecidableEq, Repr

/-- A row of `ratings.csv` / `stg_ratings`: `movie_id`, `rating`. -/
structure RatingRow where
  movie_id : Int
  rating : ℚ
deriving DecidableEq, Repr

/-- A row of `fact_movie_ratings`: the rating-side columns (with the
derived `rating2`) followed by the movie-side columns, as produced by
`r.merge(m, on="movie_id", how="inner")`. -/
structure FactRow where
  movie_id : Int
  rating : ℚ
  rating2 : ℚ
  title : String
  year : Int
deriving DecidableEq, Repr

/-- One row of the analysis aggregation result
(`select title, round(avg(rating)::numeric,2) as avg_rating, count(*) as n ...`). -/
structure Group where
  title : String
  avg_rating : ℚ
  n : Nat
deriving DecidableEq, Repr

/-- The relational store: the three relations the DAG touches.
`none` means the relation is absent from the store. -/
structure DB where
  stg_movies : Option (List MovieRow)
  stg_ratings : Option (List RatingRow)
  fact : Option (List FactRow)
deriving DecidableEq, Repr

/-- The filesystem as the DAG sees it: the names of the files in
`DATA_DIR`, the scratch directory `/opt/airflow/tmp` (`none` = absent,
`some fs` = present with those entries), and the `OUTPUT_DIR` files
(name paired with content, the content of an artifact being the group
list it was rendered from). -/
structure FS where
  dataFiles : List String
  tmpDir : Option (List String)
  outDir : Option (List (String × List Group))
deriving DecidableEq, Repr

/-! ## Ingestion tasks -/

/-- Python `str.strip()` on a string's characters: drop leading and
trailing whitespace. -/
def pyStrip (s : String) : String :=
  ⟨((s.data.dropWhile Char.isWhitespace).reverse.dropWhile Char.isWhitespace).reverse⟩

/-- Normalisation of the movies frame: `df["title"].str.strip()`. -/
def stripTitles (movies : List MovieRow) : List MovieRow :=
  movies.map (fun m => { m with title := pyStrip m.title })

/-- Task `ingest_movies`: read `movies.csv` (already parsed into typed rows),
strip each title, coerce `year` and `movie_id` (identities on the typed
embedding), and write the result to `stg_movies` with
`if_exists="replace"` semantics. -/
def ingest_movies (movies : List MovieRow) (db : DB) : DB :=
  { db with stg_movies := some (stripTitles movies) }

/-- Task `ingest_ratings`: read `ratings.csv` (already parsed into typed
rows), coerce `rating` and `movie_id` (identities on the typed
embedding), and write the result to `stg_ratings` with
`if_exists="replace"` semantics. -/
def ingest_ratings (ratings : List RatingRow) (db : DB) : DB :=
  { db with stg_ratings := some ratings }

/-! ## Merge task -/

/-- The merge computation of `merge_transform`: derive
`r["rating2"] = r["rating"] ** 2`, then inner-join the ratings frame
with the movies frame on `movie_id` (pandas `merge` keeps the left
frame's row order, pairing each rating row with every matching movie
row). -/
def mergeRows (m : List MovieRow) (r : List RatingRow) : List FactRow :=
  r.flatMap (fun rr =>
    (m.filter (fun mr => mr.movie_id == rr.movie_id)).map (fun mr =>
      { movie_id := rr.movie_id, rating := rr.rating, rating2 := rr.rating ^ 2,
        title := mr.title, year := mr.year }))

/-- Task `merge_transform`: read both staging relations (failing if either is
absent), merge them, and write the result to `fact_movie_ratings` with
`if_exists="replace"` semantics. -/
def merge_transform (db : DB) : Except String DB :=
  match db.stg_movies, db.stg_ratings with
  | some m, some r => .ok { db with fact := some (mergeRows m r) }
  | _, _ => .error "staging relation missing"

/-! ## Validation task -/

/-- Task `validate_rowcount_py`: `SELECT COUNT(*) FROM fact_movie_ratings`;
raise `ValueError("fact_movie_ratings is empty!")` when the count is
falsy (zero). Reading a non-existent relation is a query error. The
task only reads; it is typed `DB → Except String Unit`, so it cannot
write the store. -/
def validate_rowcount_py (db : DB) : Except String Unit :=
  match db.fact with
  | none => .error "relation fact_movie_ratings does not exist"
  | some rows => if rows.length = 0 then .error "fact_movie_ratings is empty!" else .ok ()

/-! ## Analysis task -/

/-- PostgreSQL `round(x::numeric, 2)`: round to 2 decimal places, halves
away from zero. -/
def pgRound2 (q : ℚ) : ℚ :=
  if 0 ≤ q then (⌊q * 100 + 1 / 2⌋ : ℚ) / 100 else -((⌊-(q * 100) + 1 / 2⌋ : ℚ) / 100)

/-- The `ORDER BY avg_rating DESC, n DESC` ordering of the analysis
query: a group comes before another when its average is larger, or the
averages are equal and its count is at least as large. -/
def GroupLE (a b : Group) : Prop :=
  b.avg_rating < a.avg_rating ∨ (a.avg_rating = b.avg_rating ∧ b.n ≤ a.n)

instance : DecidableRel GroupLE := fun a b => by
  unfold GroupLE; infer_instance

instance : IsTrans Group GroupLE where
  trans a b c hab hbc := by
    rcases hab with h1 | ⟨h1, h2⟩
    · rcases hbc with h3 | ⟨h3, h4⟩
      · exact Or.inl (h3.trans h1)
      · exact Or.inl (lt_of_eq_of_lt h3.symm h1)
    · rcases hbc with h3 | ⟨h3, h4⟩
      · exact Or.inl (lt_of_lt_of_eq h3 h1.symm)
      · exact Or.inr ⟨h1.trans h3, le_trans h4 h2⟩

instance : IsTotal Group GroupLE where
  total a b := by
    rcases lt_trichotomy a.avg_rating b.avg_rating with h | h | h
    · exact Or.inr (Or.inl h)
    · rcases le_total b.n a.n with hn | hn
      · exact Or.inl (Or.inr ⟨h, hn⟩)
      · exact Or.inr (Or.inr ⟨h.symm, hn⟩)
    · exact Or.inl (Or.inl h)

/-- The rows of the fact table belonging to one `GROUP BY title` group. -/
def groupRows (fact : List FactRow) (t : String) : List FactRow :=
  fact.filter (fun row => row.title == t)

/-- One output row of the aggregation query for the group of title `t`:
`round(avg(rating)::numeric, 2)` and `count(*)`. -/
def groupFor (fact : List FactRow) (t : String) : Group :=
  { title := t,
    avg_rating := pgRound2 (((groupRows fact t).map FactRow.rating).sum / ((groupRows fact t).length : ℚ)),
    n := (groupRows fact t).length }

/-- The analysis query of `simple_analysis`: group `fact_movie_ratings`
by title, compute the rounded average rating and the count per group,
and order by `avg_rating desc, n desc`. -/
def aggregate (fact : List FactRow) : List Group :=
  List.insertionSort GroupLE (((fact.map FactRow.title).dedup).map (groupFor fact))

/-- The pandas `sort_values("avg_rating", ascending=True)` ordering used
for the top-10 plot. -/
def AvgAsc (a b : Group) : Prop := a.avg_rating ≤ b.avg_rating

instance : DecidableRel AvgAsc := fun a b => by
  unfold AvgAsc; infer_instance

/-- Pandas `df.head(10).sort_values("avg_rating", ascending=True)`: the plotted
top-10 selection. -/
def top10 (gs : List Group) : List Group :=
  List.insertionSort AvgAsc (gs.take 10)

/-- Write (create or overwrite) one output file: replace the entry with
that name when present, append it otherwise. -/
def setFile : List (String × List Group) → String → List Group → List (String × List Group)
  | [], name, content => [(name, content)]
  | p :: ps, name, content =>
    if p.1 == name then (name, content) :: ps else p :: setFile ps name content

/-- Content of an output file, `none` when the directory or file is absent. -/
def lookupFile (fs : FS) (name : String) : Option (List Group) :=
  fs.outDir.bind (fun files => (files.find? (fun p => p.1 == name)).map Prod.snd)

/-- Python `os.makedirs(OUTPUT_DIR, exist_ok=True)`: create the output
directory if absent, keep its contents if present. -/
def makedirsOut (fs : FS) : FS :=
  { fs with outDir := some (fs.outDir.getD []) }

/-- Write a file into the (existing) output directory. -/
def writeOut (fs : FS) (name : String) (content : List Group) : FS :=
  { fs with outDir := some (setFile (fs.outDir.getD []) name content) }

/-- Filesystem effect of a succeeding `simple_analysis`: make the
output directory, write the full CSV, then — unless the plotting step
raises — write the top-10 PNG. -/
def analysisFS (fs : FS) (plotFails : Bool) (df : List Group) : FS :=
  let fs2 := writeOut (makedirsOut fs) "avg_ratings.csv" df
  if plotFails then fs2 else writeOut fs2 "avg_ratings_top10.png" (top10 df)

/-- Task `simple_analysis`: make the output directory, run the aggregation
query (failing if `fact_movie_ratings` is absent), raise
`ValueError` when the aggregation is empty, write the full CSV, then
attempt the top-10 plot — `plotFails` models an exception raised inside
the plotting `try`, which is caught and logged without failing the
task. Returns the filesystem and the aggregation dataframe. -/
def simple_analysis (db : DB) (fs : FS) (plotFails : Bool) : Except String (FS × List Group) :=
  match db.fact with
  | none => .error "relation fact_movie_ratings does not exist"
  | some fact =>
    let df := aggregate fact
    if df.isEmpty then .error "Analysis query returned 0 rows - check upstream merge."
    else .ok (analysisFS fs plotFails df, df)

/-! ## Cleanup tasks -/

/-- Task `cleanup_intermediate`: `drop table if exists stg_movies` and
`drop table if exists stg_ratings`; dropping an absent relation is a
no-op, so the task is total. -/
def cleanup_intermediate (db : DB) : DB :=
  { db with stg_movies := none, stg_ratings := none }

/-- Python `f.endswith(".tmp")` on a file name. -/
def endsWithTmp (f : String) : Bool :=
  ".tmp".data.isSuffixOf f.data

/-- Task `cleanup_files`: if `/opt/airflow/tmp` exists, `rmtree` it and
`makedirs` it again (so it becomes empty); if it does not exist,
nothing recreates it. Then delete every file of `DATA_DIR` whose name
ends with `".tmp"`. -/
def cleanup_files (fs : FS) : FS :=
  let fs1 := match fs.tmpDir with
    | some _ => { fs with tmpDir := some ([] : List String) }
    | none => fs
  { fs1 with dataFiles := fs1.dataFiles.filter (fun f => !(endsWithTmp f)) }

/-! ## The whole pipeline (one Run, in dependency order) -/

/-- One Run of the DAG in an order consistent with
`tg >> merge >> validate >> analyze >> [cleanup_db, cleanup_files_task]`:
both loaders, merge, validation, analysis, then the two cleanups (which
commute: they touch disjoint state). Any task failure fails the Run. -/
def pipeline (movies : List MovieRow) (ratings : List RatingRow) (db : DB) (fs : FS)
    (plotFails : Bool) : Except String (DB × FS × List Group) :=
  let db1 := ingest_ratings ratings (ingest_movies movies db)
  match merge_transform db1 with
  | .error e => .error e
  | .ok db2 =>
    match validate_rowcount_py db2 with
    | .error e => .error e
    | .ok _ =>
      match simple_analysis db2 fs plotFails with
      | .error e => .error e
      | .ok (fs2, gs) => .ok (cleanup_intermediate db2, cleanup_files fs2, gs)

/-! ## Orchestration model

The task graph and its task identifiers are translated from the source
(`tg >> merge >> validate >> analyze >> [cleanup_db, cleanup_files_task]`,
with the `ingest_transform_parallel` TaskGroup collapsing to the edge
set {ingest_movies, ingest_ratings} → merge). The scheduler semantics
(dependency gating, skip-on-upstream-failure, run status) are those of
the external Airflow scheduler, which is not part of this repository's
source; they are modelled from the spec. -/

/-- Terminal status of a task in one Run. -/
inductive TStatus
  | succeeded
  | failed
  | skipped
deriving DecidableEq, Repr

/-- The seven task identifiers of the DAG, named by their `task_id`. -/
inductive TaskId
  | ingest_movies
  | ingest_ratings
  | merge_and_load_final
  | validate_rowcount
  | perform_analysis
  | cleanup_stage_db
  | cleanup_files
deriving DecidableEq, Repr

/-- Modelled from the spec: an outcome assignment gives, for each task,
whether its own execution (after its retry budget) would succeed; the
orchestrator is what turns outcomes into terminal statuses. -/
def Outcome : Type := TaskId → Bool

/-- Modelled from the spec: a root task (no upstream) ends `succeeded`
or, after exhausting its retry budget, `failed`. -/
def statusLoader (o : Outcome) (t : TaskId) : TStatus :=
  if o t then .succeeded else .failed

/-- Modelled from the spec: `merge_and_load_final` runs only when both
loaders of the TaskGroup succeeded; otherwise it is `skipped` without
execution. -/
def statusMerge (o : Outcome) : TStatus :=
  if statusLoader o .ingest_movies = .succeeded ∧ statusLoader o .ingest_ratings = .succeeded then
    (if o .merge_and_load_final then .succeeded else .failed)
  else .skipped

/-- Modelled from the spec: `validate_rowcount` runs only when its
upstream `merge_and_load_final` succeeded. -/
def statusValidate (o : Outcome) : TStatus :=
  if statusMerge o = .succeeded then
    (if o .validate_rowcount then .succeeded else .failed)
  else .skipped

/-- Modelled from the spec: `perform_analysis` runs only when
`validate_rowcount` succeeded. -/
def statusAnalyze (o : Outcome) : TStatus :=
  if statusValidate o = .succeeded then
    (if o .perform_analysis then .succeeded else .failed)
  else .skipped

/-- Modelled from the spec: `cleanup_stage_db` runs only when
`perform_analysis` succeeded. -/
def statusCleanupDb (o : Outcome) : TStatus :=
  if statusAnalyze o = .succeeded then
    (if o .cleanup_stage_db then .succeeded else .failed)
  else .skipped

/-- Modelled from the spec: `cleanup_files` runs only when
`perform_analysis` succeeded. -/
def statusCleanupFiles (o : Outcome) : TStatus :=
  if statusAnalyze o = .succeeded then
    (if o .cleanup_files then .succeeded else .failed)
  else .skipped

/-- Terminal status of each task of the Run, for a given outcome
assignment. -/
def taskStatus (o : Outcome) : TaskId → TStatus
  | .ingest_movies => statusLoader o .ingest_movies
  | .ingest_ratings => statusLoader o .ingest_ratings
  | .merge_and_load_final => statusMerge o
  | .validate_rowcount => statusValidate o
  | .perform_analysis => statusAnalyze o
  | .cleanup_stage_db => statusCleanupDb o
  | .cleanup_files => statusCleanupFiles o

/-- All seven tasks of the DAG. -/
def allTasks : List TaskId :=
  [.ingest_movies, .ingest_ratings, .merge_and_load_final, .validate_rowcount,
   .perform_analysis, .cleanup_stage_db, .cleanup_files]

/-- Modelled from the spec: a Run is `failed` when any task ends
`failed` (after exhausting its retry budget). -/
def runFailed (o : Outcome) : Bool :=
  allTasks.any (fun t => taskStatus o t == .failed)

/-! ## Claim C1 -/

/-- C1: for Movies = `{(1,"A",2000)}` and Ratings = `{(1,4.0),(1,2.0)}`,
`merge_transform` produces exactly two fact rows with `rating2` 16.0 and
4.0 respectively, both joined to title "A", and the analysis aggregation
over that fact table yields the single group `("A", 3.0, 2)`. -/
theorem merge_and_analysis_concrete_example :
    merge_transform ⟨some [⟨1, "A", 2000⟩], some [⟨1, 4⟩, ⟨1, 2⟩], none⟩
      = .ok ⟨some [⟨1, "A", 2000⟩], some [⟨1, 4⟩, ⟨1, 2⟩],
             some [⟨1, 4, 16, "A", 2000⟩, ⟨1, 2, 4, "A", 2000⟩]⟩
    ∧ aggregate [⟨1, 4, 16, "A", 2000⟩, ⟨1, 2, 4, "A", 2000⟩] = [⟨"A", 3, 2⟩] := by
  constructor
  · simp [merge_transform, mergeRows]
    norm_num
  · simp [aggregate, groupFor, groupRows, pgRound2, List.insertionSort, List.dedup]
    norm_num

/-! ## Claim C3 -/

/-- C3: in every Run where one Dataset Loader succeeds and the other
ends failed after exhausting its retry budget, the Merge Stage,
Validation, Analysis and both Cleanup tasks all end `skipped`, and the
Run's terminal state is failed. -/
theorem one_loader_failed_skips_downstream (o : Outcome)
    (h : o .ingest_movies ≠ o .ingest_ratings) :
    taskStatus o .merge_and_load_final = .skipped ∧
    taskStatus o .validate_rowcount = .skipped ∧
    taskStatus o .perform_analysis = .skipped ∧
    taskStatus o .cleanup_stage_db = .skipped ∧
    taskStatus o .cleanup_files = .skipped ∧
    runFailed o = true := by
  have hm : statusMerge o = .skipped := by
    unfold statusMerge statusLoader
    cases h1 : o TaskId.ingest_movies <;> cases h2 : o TaskId.ingest_ratings <;>
      simp_all
  have hv : statusValidate o = .skipped := by unfold statusValidate; simp [hm]
  have ha : statusAnalyze o = .skipped := by unfold statusAnalyze; simp [hv]
  refine ⟨hm, hv, ha, ?_, ?_, ?_⟩
  · unfold taskStatus statusCleanupDb; simp [ha]
  · unfold taskStatus statusCleanupFiles; simp [ha]
  · unfold runFailed allTasks taskStatus statusLoader
    cases h1 : o TaskId.ingest_movies <;> cases h2 : o TaskId.ingest_ratings <;>
      simp_all

/-- C3 witness: the concrete Run where `ingest_movies` succeeds and
`ingest_ratings` fails. -/
theorem one_loader_failed_skips_downstream_witness :
    taskStatus (fun t => match t with | .ingest_ratings => false | _ => true)
        .merge_and_load_final = .skipped ∧
    taskStatus (fun t => match t with | .ingest_ratings => false | _ => true)
        .validate_rowcount = .skipped ∧
    taskStatus (fun t => match t with | .ingest_ratings => false | _ => true)
        .perform_analysis = .skipped ∧
    taskStatus (fun t => match t with | .ingest_ratings => false | _ => true)
        .cleanup_stage_db = .skipped ∧
    taskStatus (fun t => match t with | .ingest_ratings => false | _ => true)
        .cleanup_files = .skipped ∧
    runFailed (fun t => match t with | .ingest_ratings => false | _ => true) = true :=
  one_loader_failed_skips_downstream _ (by decide)

/-! ## Claim C4 -/

/-- C4: the Validation task reads only the fact relation's row count,
succeeds exactly when that count is non-zero, and raises the explicit
`ValueError` message when it is zero; it performs no writes (its type
`DB → Except String Unit` returns no store). -/
theorem validate_rowcount_gate (db : DB) (rows : List FactRow)
    (h : db.fact = some rows) :
    (validate_rowcount_py db = .ok () ↔ rows ≠ []) ∧
    (rows = [] → validate_rowcount_py db = .error "fact_movie_ratings is empty!") := by
  unfold validate_rowcount_py
  rw [h]
  constructor
  · constructor
    · intro hok hnil
      subst hnil
      simp at hok
    · intro hne
      simp [List.length_eq_zero.not.mpr hne]
  · intro hnil
    subst hnil
    simp

/-- C4 witness: a one-row fact relation passes validation and the empty
fact relation raises the explicit error. -/
theorem validate_rowcount_gate_witness :
    validate_rowcount_py ⟨none, none, some [⟨1, 4, 16, "A", 2000⟩]⟩ = .ok () ∧
    validate_rowcount_py ⟨none, none, some []⟩ = .error "fact_movie_ratings is empty!" :=
  ⟨(validate_rowcount_gate _ [⟨1, 4, 16, "A", 2000⟩] rfl).1.mpr (by simp),
   (validate_rowcount_gate _ [] rfl).2 rfl⟩

/-! ## Claim C7 -/

/-- C7 counterexample: starting from a filesystem where the scratch
directory is absent, `cleanup_files` does not recreate it — the
directory is still absent afterwards, refuting "leaves the scratch
directory existing and empty, recreating it when it is absent". -/
theorem cleanup_files_absent_dir_counterexample :
    (cleanup_files ⟨["movies.csv", "ratings.csv"], none, none⟩).tmpDir = none ∧
    ¬ (cleanup_files ⟨["movies.csv", "ratings.csv"], none, none⟩).tmpDir = some [] := by
  constructor <;> decide

/-- C7 amended: when the scratch directory exists the task resets it to
existing-and-empty, when it is absent it is left absent (never
recreated), and in either case every file with the `.tmp` suffix is
removed from the source data directory while the output directory is
untouched. -/
theorem cleanup_files_amended (fs : FS) :
    cleanup_files fs =
      ⟨fs.dataFiles.filter (fun f => !(endsWithTmp f)),
       fs.tmpDir.map (fun _ => ([] : List String)),
       fs.outDir⟩ := by
  cases h : fs.tmpDir <;> simp [cleanup_files, h]

/-! ## Claim C8 -/

/-- C8: the Storage Cleanup task drops both staging relations when
present, is a no-op on an already-missing relation (the drop is
`if exists`, so the task is total and never errors), leaves the fact
relation unchanged, and running it twice equals running it once. -/
theorem cleanup_intermediate_drop (db : DB) :
    cleanup_intermediate db = ⟨none, none, db.fact⟩ ∧
    cleanup_intermediate (cleanup_intermediate db) = cleanup_intermediate db := by
  constructor <;> rfl

/-! ## Claim C10 -/

/-- C10: the Filesystem Cleanup task removes from the data directory
exactly the files whose names end in ".tmp"; any other file — in
particular `movies.csv` and `ratings.csv` — survives the task. -/
theorem cleanup_files_frame (fs : FS) (f : String) :
    (cleanup_files fs).dataFiles = fs.dataFiles.filter (fun g => !(endsWithTmp g)) ∧
    (f ∈ (cleanup_files fs).dataFiles ↔ f ∈ fs.dataFiles ∧ endsWithTmp f = false) ∧
    endsWithTmp "movies.csv" = false ∧ endsWithTmp "ratings.csv" = false := by
  have hfilter : (cleanup_files fs).dataFiles
      = fs.dataFiles.filter (fun g => !(endsWithTmp g)) := by
    cases h : fs.tmpDir <;> simp [cleanup_files, h]
  refine ⟨hfilter, ?_, by decide, by decide⟩
  rw [hfilter, List.mem_filter]
  simp

/-! ## Helper lemmas about the aggregation and the output files -/

theorem aggregate_eq_nil_iff (fact : List FactRow) : aggregate fact = [] ↔ fact = [] := by
  rw [aggregate]
  constructor
  · intro h
    have hl : (((fact.map FactRow.title).dedup).map (groupFor fact)).length = 0 := by
      rw [← (List.perm_insertionSort GroupLE
        (((fact.map FactRow.title).dedup).map (groupFor fact))).length_eq, h]
      rfl
    simpa [List.length_eq_zero, List.dedup_eq_nil] using hl
  · intro h
    subst h
    rfl

theorem mem_aggregate {fact : List FactRow} {g : Group} :
    g ∈ aggregate fact ↔ ∃ t ∈ (fact.map FactRow.title).dedup, groupFor fact t = g := by
  rw [aggregate, (List.perm_insertionSort GroupLE _).mem_iff, List.mem_map]

theorem sorted_aggregate (fact : List FactRow) : List.Sorted GroupLE (aggregate fact) :=
  List.sorted_insertionSort GroupLE _

theorem find?_setFile_self (files : List (String × List Group)) (name : String)
    (content : List Group) :
    (setFile files name content).find? (fun p => p.1 == name) = some (name, content) := by
  induction files with
  | nil => simp [setFile]
  | cons p ps ih =>
    by_cases hp : (p.1 == name) = true
    · simp [setFile, hp]
    · simp only [setFile, hp, Bool.false_eq_true, if_false]
      rw [List.find?_cons_of_neg _ (by simpa using hp)]
      exact ih

theorem find?_setFile_other (files : List (String × List Group)) (name name' : String)
    (content : List Group) (h : (name' == name) = false) :
    (setFile files name' content).find? (fun p => p.1 == name)
      = files.find? (fun p => p.1 == name) := by
  induction files with
  | nil => simp [setFile, h]
  | cons p ps ih =>
    by_cases hp : (p.1 == name') = true
    · have hp1 : p.1 = name' := by simpa using hp
      simp only [setFile, hp, if_true]
      rw [List.find?_cons_of_neg _ (by simpa using h),
        List.find?_cons_of_neg _ (by simp [hp1]; simpa using h)]
    · simp only [setFile, hp, Bool.false_eq_true, if_false]
      by_cases hq : (p.1 == name) = true
      · rw [List.find?_cons_of_pos _ (by simpa using hq),
          List.find?_cons_of_pos _ (by simpa using hq)]
      · rw [List.find?_cons_of_neg _ (by simpa using hq),
          List.find?_cons_of_neg _ (by simpa using hq)]
        exact ih

theorem lookupFile_analysisFS_csv (fs : FS) (pf : Bool) (df : List Group) :
    lookupFile (analysisFS fs pf df) "avg_ratings.csv" = some df := by
  cases pf
  · show lookupFile (writeOut (writeOut (makedirsOut fs) "avg_ratings.csv" df)
      "avg_ratings_top10.png" (top10 df)) "avg_ratings.csv" = some df
    rw [lookupFile]
    show (Option.some _).bind _ = some df
    rw [Option.some_bind, writeOut]
    show ((setFile (setFile ((makedirsOut fs).outDir.getD []) "avg_ratings.csv" df)
      "avg_ratings_top10.png" (top10 df)).find? _).map Prod.snd = some df
    rw [find?_setFile_other _ _ _ _ (by decide), find?_setFile_self]
    rfl
  · show lookupFile (writeOut (makedirsOut fs) "avg_ratings.csv" df) "avg_ratings.csv" = some df
    rw [lookupFile]
    show (Option.some _).bind _ = some df
    rw [Option.some_bind, find?_setFile_self]
    rfl

theorem isEmpty_eq_false_of_ne_nil {α : Type} {l : List α} (h : l ≠ []) :
    l.isEmpty = false := by
  cases l with
  | nil => exact absurd rfl h
  | cons a t => rfl

/-! ## Claim C5 -/

/-- C5: on every non-empty fact relation the Analysis aggregation has at
least one group; it is ordered by mean rating descending with count
descending as tie-break; each group carries the rounded mean rating and
the row count of exactly the fact rows with its title; the group titles
are exactly the titles occurring in the fact relation; the Analysis
task returns exactly this aggregation; and whenever the aggregation
yields zero groups the Analysis task fails. -/
theorem analysis_aggregation_contract (fact : List FactRow) (hne : fact ≠ []) :
    aggregate fact ≠ [] ∧
    List.Sorted GroupLE (aggregate fact) ∧
    (∀ g ∈ aggregate fact,
      g.n = (groupRows fact g.title).length ∧
      g.avg_rating
        = pgRound2 (((groupRows fact g.title).map FactRow.rating).sum
            / ((groupRows fact g.title).length : ℚ)) ∧
      g.title ∈ fact.map FactRow.title) ∧
    (∀ t ∈ fact.map FactRow.title, ∃ g ∈ aggregate fact, g.title = t) ∧
    (∀ (db : DB) (fs : FS) (pf : Bool), db.fact = some fact →
      simple_analysis db fs pf = .ok (analysisFS fs pf (aggregate fact), aggregate fact)) ∧
    (∀ (db : DB) (fs : FS) (pf : Bool) (fact2 : List FactRow), db.fact = some fact2 →
      aggregate fact2 = [] →
      simple_analysis db fs pf
        = .error "Analysis query returned 0 rows - check upstream merge.") := by
  have hagg : aggregate fact ≠ [] := fun h => hne ((aggregate_eq_nil_iff fact).mp h)
  refine ⟨hagg, sorted_aggregate fact, ?_, ?_, ?_, ?_⟩
  · intro g hg
    obtain ⟨t, ht, hgt⟩ := mem_aggregate.mp hg
    subst hgt
    exact ⟨rfl, rfl, List.mem_dedup.mp ht⟩
  · intro t ht
    exact ⟨groupFor fact t, mem_aggregate.mpr ⟨t, List.mem_dedup.mpr ht, rfl⟩, rfl⟩
  · intro db fs pf hdb
    rw [simple_analysis, hdb]
    simp [isEmpty_eq_false_of_ne_nil hagg]
  · intro db fs pf fact2 hdb hagg2
    rw [simple_analysis, hdb]
    simp [hagg2]

/-- C5 witness: the single-row fact relation has a non-empty, sorted
aggregation, and the empty fact relation makes the Analysis task raise
the explicit zero-rows error. -/
theorem analysis_aggregation_contract_witness :
    aggregate [⟨1, 4, 16, "A", 2000⟩] ≠ [] ∧
    List.Sorted GroupLE (aggregate [⟨1, 4, 16, "A", 2000⟩]) ∧
    simple_analysis ⟨none, none, some []⟩ ⟨[], none, none⟩ false
      = .error "Analysis query returned 0 rows - check upstream merge." :=
  ⟨(analysis_aggregation_contract [⟨1, 4, 16, "A", 2000⟩] (by simp)).1,
   (analysis_aggregation_contract [⟨1, 4, 16, "A", 2000⟩] (by simp)).2.1,
   (analysis_aggregation_contract [⟨1, 4, 16, "A", 2000⟩] (by simp)).2.2.2.2.2
     _ _ false [] rfl rfl⟩

/-! ## Claim C6 -/

/-- C6: when the aggregation is non-empty, an exception raised in the
plotting step (modelled by `plotFails = true`) is caught: the Analysis
task still succeeds with the same aggregation result, and the primary
CSV artifact has been written with the full aggregation. -/
theorem visualization_failure_nonfatal (db : DB) (fs : FS) (fact : List FactRow)
    (hdb : db.fact = some fact) (hne : fact ≠ []) :
    simple_analysis db fs true
      = .ok (analysisFS fs true (aggregate fact), aggregate fact) ∧
    lookupFile (analysisFS fs true (aggregate fact)) "avg_ratings.csv"
      = some (aggregate fact) := by
  have hagg : aggregate fact ≠ [] := fun h => hne ((aggregate_eq_nil_iff fact).mp h)
  constructor
  · rw [simple_analysis, hdb]
    simp [isEmpty_eq_false_of_ne_nil hagg]
  · exact lookupFile_analysisFS_csv fs true (aggregate fact)

/-- C6 witness: the concrete one-row fact relation, with the plotting
step failing. -/
theorem visualization_failure_nonfatal_witness :
    simple_analysis ⟨none, none, some [⟨1, 4, 16, "A", 2000⟩]⟩ ⟨[], none, none⟩ true
      = .ok (analysisFS ⟨[], none, none⟩ true (aggregate [⟨1, 4, 16, "A", 2000⟩]),
             aggregate [⟨1, 4, 16, "A", 2000⟩]) ∧
    lookupFile (analysisFS ⟨[], none, none⟩ true (aggregate [⟨1, 4, 16, "A", 2000⟩]))
        "avg_ratings.csv"
      = some (aggregate [⟨1, 4, 16, "A", 2000⟩]) :=
  visualization_failure_nonfatal _ _ _ rfl (by simp)

/-! ## Claim C9 -/

/-- C9: the Analysis task makes the output directory (exist_ok) before
writing: on a filesystem whose output directory is absent it behaves
exactly as on one where the directory exists empty — it never fails
because of the missing directory — and on success the primary CSV
artifact is present in that directory. -/
theorem analysis_creates_output_dir (db : DB) (fs : FS) (pf : Bool)
    (hout : fs.outDir = none) :
    simple_analysis db fs pf = simple_analysis db { fs with outDir := some [] } pf ∧
    (∀ fact, db.fact = some fact → fact ≠ [] →
      simple_analysis db fs pf = .ok (analysisFS fs pf (aggregate fact), aggregate fact) ∧
      lookupFile (analysisFS fs pf (aggregate fact)) "avg_ratings.csv"
        = some (aggregate fact)) := by
  have hmk : makedirsOut fs = makedirsOut { fs with outDir := some [] } := by
    simp [makedirsOut, hout]
  constructor
  · rw [simple_analysis, simple_analysis]
    cases db.fact with
    | none => rfl
    | some fact =>
      simp only [analysisFS, writeOut, hmk]
  · intro fact hdb hne
    have hagg : aggregate fact ≠ [] := fun h => hne ((aggregate_eq_nil_iff fact).mp h)
    constructor
    · rw [simple_analysis, hdb]
      simp [isEmpty_eq_false_of_ne_nil hagg]
    · exact lookupFile_analysisFS_csv fs pf (aggregate fact)

/-- C9 witness: the concrete one-row fact relation with an absent
output directory. -/
theorem analysis_creates_output_dir_witness :
    simple_analysis ⟨none, none, some [⟨1, 4, 16, "A", 2000⟩]⟩ ⟨[], none, none⟩ false
      = simple_analysis ⟨none, none, some [⟨1, 4, 16, "A", 2000⟩]⟩
          ⟨[], none, some []⟩ false ∧
    simple_analysis ⟨none, none, some [⟨1, 4, 16, "A", 2000⟩]⟩ ⟨[], none, none⟩ false
      = .ok (analysisFS ⟨[], none, none⟩ false (aggregate [⟨1, 4, 16, "A", 2000⟩]),
             aggregate [⟨1, 4, 16, "A", 2000⟩]) ∧
    lookupFile (analysisFS ⟨[], none, none⟩ false (aggregate [⟨1, 4, 16, "A", 2000⟩]))
        "avg_ratings.csv"
      = some (aggregate [⟨1, 4, 16, "A", 2000⟩]) := by
  obtain ⟨h1, h2⟩ := analysis_creates_output_dir
    ⟨none, none, some [⟨1, 4, 16, "A", 2000⟩]⟩ ⟨[], none, none⟩ false rfl
  obtain ⟨h3, h4⟩ := h2 [⟨1, 4, 16, "A", 2000⟩] rfl (by simp)
  exact ⟨h1, h3, h4⟩

/-! ## Evaluation of a whole Run -/

theorem merge_after_ingest (m : List MovieRow) (r : List RatingRow) (db : DB) :
    merge_transform (ingest_ratings r (ingest_movies m db))
      = .ok ⟨some (stripTitles m), some r, some (mergeRows (stripTitles m) r)⟩ := rfl

/-- A Run is a function of the two inputs alone: it fails with the
validation error when the merge is empty, and otherwise succeeds with
the merged fact table (staging dropped) and its aggregation. -/
theorem pipeline_eq (m : List MovieRow) (r : List RatingRow) (db : DB) (fs : FS) (pf : Bool) :
    pipeline m r db fs pf =
      if mergeRows (stripTitles m) r = [] then .error "fact_movie_ratings is empty!"
      else .ok (⟨none, none, some (mergeRows (stripTitles m) r)⟩,
                cleanup_files (analysisFS fs pf (aggregate (mergeRows (stripTitles m) r))),
                aggregate (mergeRows (stripTitles m) r)) := by
  rw [pipeline, merge_after_ingest]
  by_cases hF : mergeRows (stripTitles m) r = []
  · rw [if_pos hF]
    show (match validate_rowcount_py ⟨some (stripTitles m), some r,
        some (mergeRows (stripTitles m) r)⟩ with
      | .error e => Except.error e
      | .ok _ => _) = _
    rw [validate_rowcount_py]
    simp [hF]
  · rw [if_neg hF]
    have hagg : aggregate (mergeRows (stripTitles m) r) ≠ [] :=
      fun h => hF ((aggregate_eq_nil_iff _).mp h)
    show (match validate_rowcount_py ⟨some (stripTitles m), some r,
        some (mergeRows (stripTitles m) r)⟩ with
      | .error e => Except.error e
      | .ok _ => _) = _
    rw [validate_rowcount_py]
    simp only [List.length_eq_zero, hF, if_false]
    rw [simple_analysis]
    simp [isEmpty_eq_false_of_ne_nil hagg, cleanup_intermediate]

/-! ## Claim C2 -/

/-- C2: a Run is idempotent — whenever a Run over given inputs
succeeds, running the pipeline again over the same unchanged inputs
(starting from the store and filesystem the first Run left behind)
succeeds with the identical analysis aggregation, and leaves the
identical fact relation row set in the store. -/
theorem pipeline_rerun_idempotent (m : List MovieRow) (r : List RatingRow)
    (db : DB) (fs : FS) (pf : Bool) (db1 : DB) (fs1 : FS) (gs : List Group)
    (h : pipeline m r db fs pf = .ok (db1, fs1, gs)) :
    pipeline m r db1 fs1 pf = .ok (db1, cleanup_files (analysisFS fs1 pf gs), gs) := by
  rw [pipeline_eq] at h
  by_cases hF : mergeRows (stripTitles m) r = []
  · rw [if_pos hF] at h
    exact absurd h (by simp)
  · rw [if_neg hF] at h
    have hdb1 : db1 = ⟨none, none, some (mergeRows (stripTitles m) r)⟩ := by
      have := congrArg (fun x => match x with
        | Except.ok (d, _, _) => d
        | Except.error _ => db1) h
      simpa using this.symm
    have hgs : gs = aggregate (mergeRows (stripTitles m) r) := by
      have := congrArg (fun x => match x with
        | Except.ok (_, _, g) => g
        | Except.error _ => gs) h
      simpa using this.symm
    rw [pipeline_eq, if_neg hF, hgs, hdb1]

/-- C2 witness: a concrete first Run from an empty store and empty
filesystem, re-run on the state it left behind. -/
theorem pipeline_rerun_idempotent_witness :
    pipeline [⟨1, "A", 2000⟩] [⟨1, 4⟩, ⟨1, 2⟩]
        ⟨none, none, some [⟨1, 4, 16, "A", 2000⟩, ⟨1, 2, 4, "A", 2000⟩]⟩
        ⟨[], none, some [("avg_ratings.csv", [⟨"A", 3, 2⟩])]⟩ true
      = .ok (⟨none, none, some [⟨1, 4, 16, "A", 2000⟩, ⟨1, 2, 4, "A", 2000⟩]⟩,
             cleanup_files (analysisFS ⟨[], none, some [("avg_ratings.csv", [⟨"A", 3, 2⟩])]⟩
               true [⟨"A", 3, 2⟩]),
             [⟨"A", 3, 2⟩]) :=
  pipeline_rerun_idempotent [⟨1, "A", 2000⟩] [⟨1, 4⟩, ⟨1, 2⟩]
    ⟨none, none, none⟩ ⟨[], none, none⟩ true _ _ _ (by
      rw [pipeline_eq]
      have hsm : stripTitles [⟨1, "A", 2000⟩] = [⟨1, "A", 2000⟩] := rfl
      have hmr : mergeRows [⟨1, "A", 2000⟩] [⟨1, 4⟩, ⟨1, 2⟩]
          = [⟨1, 4, 16, "A", 2000⟩, ⟨1, 2, 4, "A", 2000⟩] := by
        simp [mergeRows]
        norm_num
      have hagg : aggregate [⟨1, 4, 16, "A", 2000⟩, ⟨1, 2, 4, "A", 2000⟩]
          = [⟨"A", 3, 2⟩] := by
        simp [aggregate, groupFor, groupRows, pgRound2, List.insertionSort, List.dedup]
        norm_num
      rw [hsm, hmr, hagg]
      simp [analysisFS, makedirsOut, writeOut, setFile, top10, cleanup_files,
        List.insertionSort])

end ETL
